import Mathlib

/-!
Shallow embedding of `tools/deletebyquery/deletebyquery.py` (the NEXUS
delete-by-query tool) and proofs about it.

The tool's collaborators (the Solr index, the Cassandra row store, the
interactive operator on stdin, and the random sampler) are modelled as
explicit oracle parameters collected in a `World`.  Each embedded function
returns, alongside its result, a trace of external events (`Ev`) so that
ordering and absence properties ("no prompt was issued", "the row-store
delete happens before the index bulk delete") can be stated.

Python exceptions are modelled with `Except PyErr`; a function whose Python
original cannot raise is total here.  Machine-level details that no claim
touches (the exact log message text for the sampled document, the `fl`
parameters set on the query object, TLS/auth setup) are reduced to tags and
are marked in comments.
-/

namespace DeleteByQuery

/-- The opaque cursor token issued by Solr.  The literal `"*"` sentinel of the
source is `star`; server-issued tokens are `tok n`.  Only equality of tokens
is ever used by the source. -/
inductive CursorTok where
  | star
  | tok (n : Nat)
  deriving DecidableEq, Repr

/-- Position in the stable result set denoted by a cursor token: the sentinel
denotes the beginning. -/
def CursorTok.pos : CursorTok → Nat
  | CursorTok.star => 0
  | CursorTok.tok n => n

/-- A Solr document as seen by this tool: only two fields are ever read.
`id` models `doc['id']` (read by the paginator) and `uniqueKey` models
`doc[SOLR_UNIQUE_KEY]` (read by the sampler); `none` models an absent field,
whose access raises `KeyError`.  Field values are Python strings, modelled
as `List Char`. -/
structure SolrDoc where
  id : Option (List Char)
  uniqueKey : Option (List Char)
  deriving DecidableEq, Repr

/-- Response to a plain (uncursored) search: `numFound` and the page of
documents, as read by `check_query`. -/
structure CountResponse where
  numFound : Nat
  docs : List SolrDoc
  deriving DecidableEq, Repr

/-- Response to a cursored search, as read by `do_solr_query`.
`nextCursorMark = none` models a response object without that attribute,
whose access raises `AttributeError` (the "No Results" branch). -/
structure PageResponse where
  nextCursorMark : Option CursorTok
  docs : List SolrDoc
  deriving DecidableEq, Repr

/-- The `SearchOptions` query object built by `delete_by_query`.  The `fl`
clauses are fixed by the source and carry no information, so they are not
recorded; the structured `jsonparams` body is kept opaque as its raw text.
Mutations that `do_solr_query` performs on the shared object (`sort`,
`cursorMark`) are per-request parameters of the search oracle and are not
recorded either. -/
structure Query where
  q : Option String
  fq : List String
  jsonparams : Option String
  rows : Nat
  deriving DecidableEq, Repr

/-- The command-line arguments that reach `delete_by_query`. -/
structure Args where
  query : Option String
  filterquery : Option (List String)
  jsonparams : Option String
  rows : Nat
  deriving DecidableEq, Repr

/-- Python exceptions that the modelled code can raise, plus `fuelExhausted`,
which marks the (environment-caused) case that cursor pagination did not
terminate within the given fuel. -/
inductive PyErr where
  | eof          -- EOFError from input() on exhausted stdin
  | valueError   -- ValueError: random.sample from an empty page, or uuid.UUID parse failure
  | keyError     -- KeyError: missing document field
  | indexError   -- IndexError: docs[0] on an empty result list
  | runtimeError -- RuntimeError("either query or jsonparams is required")
  | fuelExhausted
  deriving DecidableEq, Repr

/-- Decidable equality for `Except`, used to evaluate run results on
concrete inputs. -/
instance instDecEqExcept {ε α : Type} [DecidableEq ε] [DecidableEq α] :
    DecidableEq (Except ε α) := fun a b =>
  match a, b with
  | Except.error e, Except.error f =>
    match decEq e f with
    | isTrue h => isTrue (by rw [h])
    | isFalse h => isFalse fun hh => h (by cases hh; rfl)
  | Except.error _, Except.ok _ => isFalse fun hh => by cases hh
  | Except.ok _, Except.error _ => isFalse fun hh => by cases hh
  | Except.ok x, Except.ok y =>
    match decEq x y with
    | isTrue h => isTrue (by rw [h])
    | isFalse h => isFalse fun hh => h (by cases hh; rfl)

/-- Externally observable events, in program order. -/
inductive Ev where
  | searchCount                      -- solr_collection.search(query) in check_query
  | searchSample                     -- solr_collection.search(se) for the sampled key
  | prompt (shownCount : Nat)        -- an input() call; the count shown in its message
  | logInfo (msg : String)
  | logWarn (msg : String)
  | cassExec (ids : List Nat)        -- execute_concurrent_with_args over the whole roster (blocking)
  | solrDelete (q : Query) (commit : Bool)  -- solr_collection.delete(query, commit=...)
  | solrCommit                       -- solr_collection.commit()
  deriving DecidableEq, Repr

/-- The environment of one run: the responses of the two stores and the
random draws.  `countResp` answers `search(query)`, `sampleResp` answers the
re-query for a sampled unique key (keyed by the sampled value, since the
field name is fixed configuration), `pageResp` answers the cursored search
of the paginator, and `cassResults` is the per-record outcome list returned
by `cassandra.concurrent.execute_concurrent_with_args`. -/
structure World where
  countResp : CountResponse
  sampleResp : List Char → CountResponse
  pageResp : CursorTok → PageResponse
  cassResults : List Nat → List (Bool × String)

/-! ### Python `uuid.UUID(hex)` string parsing

CPython parses `uuid.UUID(s)` by removing every occurrence of `urn:` and of
`uuid:`, stripping curly braces from both ends, removing every dash, and then
requiring exactly 32 hexadecimal digits.  (The exotic `int(_, 16)` forms with
sign characters or underscores are not modelled.)  A successful parse yields
the 128-bit value as a `Nat`. -/

/-- Value of a hexadecimal digit, `none` for a non-digit. -/
def hexDigitVal (c : Char) : Option Nat :=
  if '0' ≤ c ∧ c ≤ '9' then some (c.toNat - '0'.toNat)
  else if 'a' ≤ c ∧ c ≤ 'f' then some (c.toNat - 'a'.toNat + 10)
  else if 'A' ≤ c ∧ c ≤ 'F' then some (c.toNat - 'A'.toNat + 10)
  else none

/-- Left-to-right accumulation of a hexadecimal number. -/
def hexNatGo (acc : Nat) : List Char → Option Nat
  | [] => some acc
  | c :: cs =>
    match hexDigitVal c with
    | none => none
    | some v => hexNatGo (acc * 16 + v) cs

/-- `removeAllGo pat skip s` removes every non-overlapping occurrence of
`pat` from `s`, scanning left to right; `skip` counts characters of a
matched occurrence still to be dropped.  This is Python's
`s.replace(pat, '')`. -/
def removeAllGo (pat : List Char) : Nat → List Char → List Char
  | _, [] => []
  | k + 1, _ :: rest => removeAllGo pat k rest
  | 0, c :: rest =>
    if pat.isPrefixOf (c :: rest) then removeAllGo pat (pat.length - 1) rest
    else c :: removeAllGo pat 0 rest

/-- Python `s.replace(pat, '')`. -/
def removeAll (pat s : List Char) : List Char :=
  removeAllGo pat 0 s

/-- Whether a character is one of the two curly braces. -/
def isCurly (c : Char) : Bool :=
  c == '\x7b' || c == '\x7d'

/-- Python `s.strip('\x7b\x7d')`: drop curly braces from both ends. -/
def stripCurly (l : List Char) : List Char :=
  ((l.dropWhile isCurly).reverse.dropWhile isCurly).reverse

/-- Python `uuid.UUID(s)`: `none` models a raised `ValueError`. -/
def pyUUID (s : List Char) : Option Nat :=
  let h1 := removeAll "urn:".toList s
  let h2 := removeAll "uuid:".toList h1
  let h3 := removeAll ['-'] (stripCurly h2)
  if h3.length = 32 then hexNatGo 0 h3 else none

/-! ### The Cursor Paginator (`do_solr_query`) -/

/-- The list comprehension `[uuid.UUID(doc['id']) for doc in docs]`:
a missing `id` field raises `KeyError`, a malformed value raises
`ValueError`; evaluation is left to right and stops at the first failure. -/
def extractIds : List SolrDoc → Except PyErr (List Nat)
  | [] => Except.ok []
  | d :: ds =>
    match d.id with
    | none => Except.error PyErr.keyError
    | some s =>
      match pyUUID s with
      | none => Except.error PyErr.valueError
      | some u =>
        match extractIds ds with
        | Except.error e => Except.error e
        | Except.ok us => Except.ok (u :: us)

/-- One `while True` iteration structure of `do_solr_query`, with explicit
fuel (`none` = the loop did not terminate within the fuel; the Python loop
has no bound of its own).  Mirrors the source order: read
`nextCursorMark` (AttributeError returns `[]`, discarding the accumulator),
compare it with the token just sent (`break` before reading the page's
documents), otherwise advance the cursor and extend the accumulator. -/
def doSolrQueryGo (search : CursorTok → PageResponse) :
    Nat → CursorTok → List Nat → Option (Except PyErr (List Nat))
  | 0, _, _ => none
  | fuel + 1, cursor, acc =>
    let r := search cursor
    match r.nextCursorMark with
    | none => some (Except.ok [])
    | some nxt =>
      if nxt = cursor then some (Except.ok acc)
      else
        match extractIds r.docs with
        | Except.error e => some (Except.error e)
        | Except.ok ids => doSolrQueryGo search fuel nxt (acc ++ ids)

/-- `do_solr_query(query)`: run the cursor loop from the `"*"` sentinel with
an empty accumulator.  The `sort('<key> asc')` set on the query is a
property of the search oracle. -/
def do_solr_query (search : CursorTok → PageResponse) (fuel : Nat) :
    Option (Except PyErr (List Nat)) :=
  doSolrQueryGo search fuel CursorTok.star []

/-- A stable, ascending-sorted Solr backend over a fixed result set
`index` (document unique-key strings, served in index order; both stored
fields carry the key, as with the default `--solrIdField id`
configuration).  A cursor denotes a position; a request returns the next
`rows` documents and, following Solr cursor semantics, echoes the received
cursor token exactly when the page is empty and otherwise issues a token
positioned after the page. -/
def stableSearch (index : List (List Char)) (rows : Nat) (c : CursorTok) : PageResponse :=
  let pos := c.pos
  let page := (index.drop pos).take rows
  { nextCursorMark := some (if page = [] then c else CursorTok.tok (pos + page.length)),
    docs := page.map fun s => { id := some s, uniqueKey := some s } }

/-! ### The Confirmation Gate (`check_query`) and `confirm_delete` -/

/-- The prompt loop of `check_query` from its first `input()` call onward,
consuming the stdin stream one element per `input()` call.  The source's
`while do_continue not in ['y','n','s','']` re-prompt loop is the final
(invalid-input) branch; the source's recursive `return check_query(query)`
after sampling re-enters `check_query` from the top, i.e. it re-runs the
count query and the zero check before prompting again, which is inlined
here (branch on `numFound` after the sample) so that the recursion is
structural on the input stream.  An exhausted stream models `EOFError`. -/
def check_query_go (w : World) : List Nat → List String → List Ev × Except PyErr (Bool × List String × List Nat)
  | _, [] => ([Ev.prompt w.countResp.numFound], Except.error PyErr.eof)
  | picks, i :: rest =>
    if i = "y" ∨ i = "" then
      ([Ev.prompt w.countResp.numFound], Except.ok (true, rest, picks))
    else if i = "n" then
      ([Ev.prompt w.countResp.numFound], Except.ok (false, rest, picks))
    else if i = "s" then
      -- sample(solr_response.result.response.docs, 1)[0] raises ValueError on an empty page
      match w.countResp.docs with
      | [] => ([Ev.prompt w.countResp.numFound], Except.error PyErr.valueError)
      | d :: ds =>
        -- one uniformly random element of the page: the next draw, reduced mod the page size
        let sampled := (d :: ds).getD (picks.headD 0 % (d :: ds).length)
          { id := none, uniqueKey := none }
        match sampled.uniqueKey with
        | none => ([Ev.prompt w.countResp.numFound], Except.error PyErr.keyError)
        | some kv =>
          match (w.sampleResp kv).docs with
          | [] => ([Ev.prompt w.countResp.numFound, Ev.searchSample], Except.error PyErr.indexError)
          | _ :: _ =>
            -- logging.info(json.dumps(docs[0])), then return check_query(query)
            if w.countResp.numFound = 0 then
              ([Ev.prompt w.countResp.numFound, Ev.searchSample,
                 Ev.logInfo "sampled document", Ev.searchCount,
                 Ev.logInfo "Query returned 0 results"],
               Except.ok (false, rest, picks.tail))
            else
              let pr := check_query_go w picks.tail rest
              ([Ev.prompt w.countResp.numFound, Ev.searchSample,
                 Ev.logInfo "sampled document", Ev.searchCount] ++ pr.1, pr.2)
    else
      -- invalid input: re-prompt without advancing
      let pr := check_query_go w picks rest
      (Ev.prompt w.countResp.numFound :: pr.1, pr.2)

/-- `check_query(query)`: run the count query; on `numFound == 0` log and
return `False` with no prompt; otherwise enter the prompt loop.  Returns the
decision together with the unconsumed stdin and random streams. -/
def check_query (w : World) (picks : List Nat) (inputs : List String) :
    List Ev × Except PyErr (Bool × List String × List Nat) :=
  if w.countResp.numFound = 0 then
    ([Ev.searchCount, Ev.logInfo "Query returned 0 results"], Except.ok (false, inputs, picks))
  else
    let pr := check_query_go w picks inputs
    (Ev.searchCount :: pr.1, pr.2)

/-- The prompt loop of `confirm_delete`: only `y` and `n` are accepted,
anything else re-prompts, and the result is `do_continue == 'y'`. -/
def confirm_delete_go (num_found : Nat) : List String → List Ev × Option (Bool × List String)
  | [] => ([Ev.prompt num_found], none)
  | i :: rest =>
    if i = "y" ∨ i = "n" then ([Ev.prompt num_found], some (i == "y", rest))
    else
      let pr := confirm_delete_go num_found rest
      (Ev.prompt num_found :: pr.1, pr.2)

/-- `confirm_delete(num_found)`.  `none` models `EOFError` on exhausted
stdin. -/
def confirm_delete (num_found : Nat) (inputs : List String) :
    List Ev × Option (Bool × List String) :=
  confirm_delete_go num_found inputs

/-! ### The Dual-Store Deleter (`do_delete`) -/

/-- `delete_from_cassandra(doc_ids)`: prepare one parameterized statement,
submit the whole roster through `execute_concurrent_with_args` (which blocks
until every outcome is in), then log a warning per failed outcome.  The
Python function contains no `raise`, so this model is total. -/
def delete_from_cassandra (w : World) (doc_ids : List Nat) : List Ev :=
  Ev.cassExec doc_ids ::
    (w.cassResults doc_ids).filterMap fun p =>
      if p.1 then none else some (Ev.logWarn ("Could not delete tile " ++ p.2))

/-- `delete_from_solr(query)`: one bulk delete keyed by the query object,
without immediate commit, then a commit. -/
def delete_from_solr (query : Query) : List Ev :=
  [Ev.solrDelete query false, Ev.solrCommit]

/-- `do_delete(doc_ids, query)`: row store first, then index; returns the
roster it was given. -/
def do_delete (w : World) (doc_ids : List Nat) (query : Query) : List Ev × List Nat :=
  ([Ev.logInfo "Executing Cassandra delete..."] ++ delete_from_cassandra w doc_ids
     ++ [Ev.logInfo "Executing Solr delete..."] ++ delete_from_solr query,
   doc_ids)

/-! ### The Coordinator (`delete_by_query`) -/

/-- Python truthiness of an optional string argument: absent and empty are
both falsy. -/
def truthyStr : Option String → Bool
  | none => false
  | some s => !(s == "")

/-- Query construction at the top of `delete_by_query`: free-text form with
filter queries, or the structured `jsonparams` form (kept opaque; a
`json.loads` failure on malformed input is not modelled as no claim touches
it), else `RuntimeError`.  `rows` is set on the query afterwards in either
form. -/
def build_query (args : Args) : Except PyErr Query :=
  if truthyStr args.query then
    Except.ok { q := args.query, fq := args.filterquery.getD [], jsonparams := none,
                rows := args.rows }
  else if truthyStr args.jsonparams then
    Except.ok { q := none, fq := [], jsonparams := args.jsonparams, rows := args.rows }
  else Except.error PyErr.runtimeError

/-- `delete_by_query(args)`: build the query, run the Confirmation Gate,
paginate, run the second confirmation with the paginated count, delete,
log.  Each branch keeps the events already emitted before an exception. -/
def delete_by_query (args : Args) (w : World) (fuel : Nat) (picks : List Nat)
    (inputs : List String) : List Ev × Except PyErr Unit :=
  match build_query args with
  | Except.error e => ([], Except.error e)
  | Except.ok query =>
    match check_query w picks inputs with
    | (t1, Except.error e) => (t1, Except.error e)
    | (t1, Except.ok (false, _, _)) => (t1 ++ [Ev.logInfo "Exiting"], Except.ok ())
    | (t1, Except.ok (true, inputs2, _)) =>
      match do_solr_query w.pageResp fuel with
      | none => (t1 ++ [Ev.logInfo "Collecting tiles ...."], Except.error PyErr.fuelExhausted)
      | some (Except.error e) => (t1 ++ [Ev.logInfo "Collecting tiles ...."], Except.error e)
      | some (Except.ok solr_docs) =>
        match confirm_delete solr_docs.length inputs2 with
        | (t3, none) =>
          (t1 ++ [Ev.logInfo "Collecting tiles ...."] ++ t3, Except.error PyErr.eof)
        | (t3, some (false, _)) =>
          (t1 ++ [Ev.logInfo "Collecting tiles ...."] ++ t3 ++ [Ev.logInfo "Exiting"],
           Except.ok ())
        | (t3, some (true, _)) =>
          (t1 ++ [Ev.logInfo "Collecting tiles ...."] ++ t3
             ++ (do_delete w solr_docs query).1 ++ [Ev.logInfo "Deleted tile IDs"],
           Except.ok ())

/-- An event is an `input()` call. -/
def isPrompt : Ev → Bool
  | Ev.prompt _ => true
  | _ => false

/-- An event is a deletion call against either store. -/
def isDeleteCall : Ev → Bool
  | Ev.cassExec _ => true
  | Ev.solrDelete _ _ => true
  | Ev.solrCommit => true
  | _ => false

/-! ### Concrete example data for witnesses and counterexamples -/

/-- A well-formed unique key string parsing to the UUID value 1. -/
def uuidStr1 : List Char := "00000000000000000000000000000001".toList

/-- A well-formed unique key string parsing to the UUID value 2. -/
def uuidStr2 : List Char := "00000000000000000000000000000002".toList

/-- A well-formed document carrying `uuidStr1` in both fields. -/
def exDoc1 : SolrDoc := { id := some uuidStr1, uniqueKey := some uuidStr1 }

/-- A two-element stable result set. -/
def exIndex : List (List Char) := [uuidStr1, uuidStr2]

/-- The query object built from `exArgs`. -/
def exQuery : Query := { q := some "*:*", fq := [], jsonparams := none, rows := 1000 }

/-- Concrete arguments using the free-text query form. -/
def exArgs : Args := { query := some "*:*", filterquery := none, jsonparams := none, rows := 1000 }

/-- A count response with no matches. -/
def noResults : CountResponse := { numFound := 0, docs := [] }

/-- A world whose count query reports zero matches. -/
def exW5 : World :=
  { countResp := noResults
    sampleResp := fun _ => noResults
    pageResp := fun _ => { nextCursorMark := none, docs := [] }
    cassResults := fun _ => [] }

/-- A one-document paged backend: the first request returns the document and
an advanced token, any later request echoes the token it received. -/
def exPage3 : CursorTok → PageResponse := fun c =>
  match c with
  | CursorTok.star => { nextCursorMark := some (CursorTok.tok 1), docs := [exDoc1] }
  | CursorTok.tok m => { nextCursorMark := some (CursorTok.tok m), docs := [] }

/-- A world with one healthy matching document. -/
def exW3 : World :=
  { countResp := { numFound := 1, docs := [exDoc1] }
    sampleResp := fun _ => { numFound := 1, docs := [exDoc1] }
    pageResp := exPage3
    cassResults := fun ids => ids.map fun _ => (true, "") }

/-- Like `exW3` but the cursored search reports no results (response without
a `nextCursorMark` attribute), so pagination returns the empty roster. -/
def exW3b : World :=
  { exW3 with pageResp := fun _ => { nextCursorMark := none, docs := [] } }

/-- A world whose count query reports one match but serves an empty document
page, starving the sampler. -/
def exW10 : World :=
  { exW3 with countResp := { numFound := 1, docs := [] } }

/-- A backend that always answers with the token `tok 1`: at cursor `tok 1`
this is the round-trip termination signal, and its page is nonempty. -/
def exSearch2 : CursorTok → PageResponse := fun _ =>
  { nextCursorMark := some (CursorTok.tok 1), docs := [exDoc1] }

/-- Same shape as `exSearch2`, used to exercise one advancing step from the
sentinel. -/
def exSearch9 : CursorTok → PageResponse := fun _ =>
  { nextCursorMark := some (CursorTok.tok 1), docs := [exDoc1] }

/-- A backend whose page holds a document with a malformed unique key. -/
def exSearch8 : CursorTok → PageResponse := fun _ =>
  { nextCursorMark := some (CursorTok.tok 1),
    docs := [{ id := some ['z'], uniqueKey := none }] }

/-- A world whose single row-store outcome is a failure. -/
def exW6 : World :=
  { exW3 with cassResults := fun _ => [(false, "tile1")] }

/-- A world with one successful and one failed row-store outcome. -/
def exW7 : World :=
  { exW3 with cassResults := fun _ => [(true, "ok"), (false, "tile2")] }

/-! ## Helper lemmas about the paginator loop -/

/-- One loop iteration when the response has no `nextCursorMark` attribute:
the `AttributeError` branch returns the empty list, discarding the
accumulator. -/
theorem doSolrQueryGo_noMark (search : CursorTok → PageResponse) (fuel : Nat)
    (cursor : CursorTok) (acc : List Nat)
    (h : (search cursor).nextCursorMark = none) :
    doSolrQueryGo search (fuel + 1) cursor acc = some (Except.ok []) := by
  simp [doSolrQueryGo, h]

/-- One loop iteration when the response echoes the cursor just sent: the
loop breaks and returns the accumulator, never reading this response's
document list. -/
theorem doSolrQueryGo_terminal (search : CursorTok → PageResponse) (fuel : Nat)
    (cursor : CursorTok) (acc : List Nat)
    (h : (search cursor).nextCursorMark = some cursor) :
    doSolrQueryGo search (fuel + 1) cursor acc = some (Except.ok acc) := by
  simp [doSolrQueryGo, h]

/-- One loop iteration when the cursor advanced: the page's parsed IDs are
appended and the loop continues from the new token. -/
theorem doSolrQueryGo_advance (search : CursorTok → PageResponse) (fuel : Nat)
    (cursor nxt : CursorTok) (acc ids : List Nat)
    (h1 : (search cursor).nextCursorMark = some nxt) (h2 : nxt ≠ cursor)
    (h3 : extractIds (search cursor).docs = Except.ok ids) :
    doSolrQueryGo search (fuel + 1) cursor acc
      = doSolrQueryGo search fuel nxt (acc ++ ids) := by
  simp [doSolrQueryGo, h1, h2, h3]

/-- One loop iteration when the cursor advanced but a document of the page
fails ID extraction: the exception propagates out of the run. -/
theorem doSolrQueryGo_raise (search : CursorTok → PageResponse) (fuel : Nat)
    (cursor nxt : CursorTok) (acc : List Nat) (e : PyErr)
    (h1 : (search cursor).nextCursorMark = some nxt) (h2 : nxt ≠ cursor)
    (h3 : extractIds (search cursor).docs = Except.error e) :
    doSolrQueryGo search (fuel + 1) cursor acc = some (Except.error e) := by
  simp [doSolrQueryGo, h1, h2, h3]

/-- A page containing a document with an absent or unparseable `id` field
makes `extractIds` raise. -/
theorem extractIds_error_of_bad : ∀ (docs : List SolrDoc) (d : SolrDoc), d ∈ docs →
    (d.id = none ∨ ∃ s, d.id = some s ∧ pyUUID s = none) →
    ∃ e, extractIds docs = Except.error e := by
  intro docs
  induction docs with
  | nil => intro d hd; simp at hd
  | cons a t ih =>
    intro d hd hbad
    rcases List.mem_cons.mp hd with rfl | hmem
    · rcases hbad with hnone | ⟨s, hs, hps⟩
      · exact ⟨PyErr.keyError, by simp [extractIds, hnone]⟩
      · exact ⟨PyErr.valueError, by simp [extractIds, hs, hps]⟩
    · rcases ih d hmem hbad with ⟨e, he⟩
      cases ha : a.id with
      | none => exact ⟨PyErr.keyError, by simp [extractIds, ha]⟩
      | some s =>
        cases hps : pyUUID s with
        | none => exact ⟨PyErr.valueError, by simp [extractIds, ha, hps]⟩
        | some u => exact ⟨e, by simp [extractIds, ha, hps, he]⟩

/-- When `extractIds` succeeds it produced one ID per document: no document
was skipped. -/
theorem extractIds_ok_length : ∀ (docs : List SolrDoc) (ids : List Nat),
    extractIds docs = Except.ok ids → ids.length = docs.length := by
  intro docs
  induction docs with
  | nil => intro ids h; simp [extractIds] at h; simp [← h]
  | cons a t ih =>
    intro ids h
    cases ha : a.id with
    | none => simp [extractIds, ha] at h
    | some s =>
      cases hps : pyUUID s with
      | none => simp [extractIds, ha, hps] at h
      | some u =>
        cases hrec : extractIds t with
        | error e => simp [extractIds, ha, hps, hrec] at h
        | ok us =>
          simp [extractIds, ha, hps, hrec] at h
          simp [← h, ih us hrec]

/-- `extractIds` over a page of well-formed key strings returns exactly the
parsed keys. -/
theorem extractIds_map_some : ∀ (l : List (List Char)),
    (∀ s ∈ l, (pyUUID s).isSome = true) →
    extractIds (l.map fun s => { id := some s, uniqueKey := some s })
      = Except.ok (l.filterMap pyUUID) := by
  intro l
  induction l with
  | nil => intro _; simp [extractIds]
  | cons a t ih =>
    intro h
    rcases Option.isSome_iff_exists.mp (h a (by simp)) with ⟨u, hu⟩
    simp [extractIds, hu, List.filterMap_cons, ih fun s hs => h s (by simp [hs])]

/-- `filterMap` over a list of parseable keys loses nothing. -/
theorem filterMap_length_all_some : ∀ (l : List (List Char)),
    (∀ s ∈ l, (pyUUID s).isSome = true) →
    (l.filterMap pyUUID).length = l.length := by
  intro l
  induction l with
  | nil => intro _; simp
  | cons a t ih =>
    intro h
    rcases Option.isSome_iff_exists.mp (h a (by simp)) with ⟨u, hu⟩
    simp [List.filterMap_cons, hu, ih fun s hs => h s (by simp [hs])]

/-- Invariant of the paginator loop against the stable backend: starting
from any cursor denoting position `c.pos` with enough fuel, the loop
returns the accumulator extended with exactly the parsed keys of the
remaining suffix of the result set. -/
theorem stable_go (index : List (List Char)) (rows : Nat) (hrows : 1 ≤ rows)
    (hp : ∀ s ∈ index, (pyUUID s).isSome = true) :
    ∀ (fuel : Nat) (c : CursorTok) (acc : List Nat),
      index.length - c.pos < fuel →
      doSolrQueryGo (stableSearch index rows) fuel c acc
        = some (Except.ok (acc ++ (index.drop c.pos).filterMap pyUUID)) := by
  intro fuel
  induction fuel with
  | zero => intro c acc h; omega
  | succ fuel ih =>
    intro c acc h
    by_cases hpage : (index.drop c.pos).take rows = []
    · have hdrop : index.drop c.pos = [] := by
        rcases List.take_eq_nil_iff.mp hpage with h0 | h0
        · omega
        · exact h0
      have hterm : (stableSearch index rows c).nextCursorMark = some c := by
        simp [stableSearch, hpage]
      rw [doSolrQueryGo_terminal _ _ _ _ hterm, hdrop]
      simp
    · set page := (index.drop c.pos).take rows with hpagedef
      have hpagelen : page.length = min rows (index.drop c.pos).length :=
        List.length_take _ _
      have hlendrop : (index.drop c.pos).length = index.length - c.pos :=
        List.length_drop _ _
      have hpagepos : 0 < page.length := by
        cases hq : page with
        | nil => exact absurd hq hpage
        | cons a t => simp [hq]
      have hpos_lt : c.pos < index.length := by
        by_contra hge
        push_neg at hge
        have h0 : index.drop c.pos = [] := by
          rw [List.drop_eq_nil_iff]; omega
        exact hpage (by rw [hpagedef, h0]; simp)
      have hnext : (stableSearch index rows c).nextCursorMark
          = some (CursorTok.tok (c.pos + page.length)) := by
        simp only [stableSearch]
        rw [if_neg hpage]
      have hne : CursorTok.tok (c.pos + page.length) ≠ c := by
        intro heq
        have h2 : c.pos + page.length = c.pos := congrArg CursorTok.pos heq
        omega
      have hsub : ∀ s ∈ page, (pyUUID s).isSome = true := by
        intro s hs
        exact hp s ((List.drop_sublist _ _).subset ((List.take_sublist _ _).subset hs))
      have hdocs : (stableSearch index rows c).docs
          = page.map fun s => { id := some s, uniqueKey := some s } := rfl
      have hext : extractIds (stableSearch index rows c).docs
          = Except.ok (page.filterMap pyUUID) := by
        rw [hdocs]; exact extractIds_map_some page hsub
      have hsplit : page.filterMap pyUUID
            ++ (index.drop (c.pos + page.length)).filterMap pyUUID
          = (index.drop c.pos).filterMap pyUUID := by
        by_cases hr : rows ≤ (index.drop c.pos).length
        · have hlen : page.length = rows := by rw [hpagelen]; omega
          conv_rhs => rw [← List.take_append_drop rows (index.drop c.pos)]
          rw [List.filterMap_append, ← hpagedef, hlen, List.drop_drop]
        · push_neg at hr
          have hlen : page.length = (index.drop c.pos).length := by
            rw [hpagelen]; omega
          have hnil : index.drop (c.pos + page.length) = [] := by
            rw [List.drop_eq_nil_iff]; omega
          have hall : page = index.drop c.pos := by
            rw [hpagedef]
            exact List.take_of_length_le (by omega)
          rw [hnil, hall]; simp
      have hptok : (CursorTok.tok (c.pos + page.length)).pos = c.pos + page.length := rfl
      rw [doSolrQueryGo_advance _ _ _ _ _ _ hnext hne hext]
      rw [ih (CursorTok.tok (c.pos + page.length)) (acc ++ page.filterMap pyUUID)
        (by rw [hptok]; omega)]
      rw [hptok, List.append_assoc, hsplit]

/-! ## Claims about the Cursor Paginator -/

/-- Claim C1: for every query whose stable result set has size `n` with
`0 < n` (documents unique and served ascending by the unique-key field,
with parseable IDs) and every page size between 1 and `n`, `do_solr_query`
returns exactly the `n` Record IDs, each unique, sorted ascending, with no
ID omitted and no ID fetched twice across page boundaries. -/
theorem c1_paginator_exact (index : List (List Char)) (rows : Nat)
    (hn : 0 < index.length) (hr1 : 1 ≤ rows) (_hr2 : rows ≤ index.length)
    (hp : ∀ s ∈ index, (pyUUID s).isSome = true)
    (hsorted : (index.filterMap pyUUID).Pairwise (· < ·)) :
    do_solr_query (stableSearch index rows) (index.length + 1)
        = some (Except.ok (index.filterMap pyUUID))
    ∧ (index.filterMap pyUUID).length = index.length
    ∧ (index.filterMap pyUUID).Nodup
    ∧ (index.filterMap pyUUID).Pairwise (· < ·) := by
  refine ⟨?_, filterMap_length_all_some index hp, ?_, hsorted⟩
  · have hzero : CursorTok.star.pos = 0 := rfl
    have hgo := stable_go index rows hr1 hp (index.length + 1) CursorTok.star []
      (by rw [hzero]; omega)
    rw [hzero] at hgo
    simpa [do_solr_query] using hgo
  · exact List.Pairwise.imp (fun h => Nat.ne_of_lt h) hsorted

/-- Witness for C1: a concrete two-document result set paged one at a
time. -/
theorem c1_paginator_exact_witness :
    do_solr_query (stableSearch exIndex 1) (exIndex.length + 1)
        = some (Except.ok (exIndex.filterMap pyUUID))
    ∧ (exIndex.filterMap pyUUID).length = exIndex.length
    ∧ (exIndex.filterMap pyUUID).Nodup
    ∧ (exIndex.filterMap pyUUID).Pairwise (· < ·) :=
  c1_paginator_exact exIndex 1 (by decide) (by decide) (by decide) (by decide)
    (by decide)

/-- Claim C2: when a response's next-cursor equals the token just sent, the
loop stops without appending that page's records a second time; and in a
run over a stable nonempty result set with positive page size, the first
request — which sends the sentinel — is never answered with the sentinel,
and the run has accumulated every (hence at least one) record when the
round-trip condition fires. -/
theorem c2_roundtrip_termination :
    (∀ (search : CursorTok → PageResponse) (fuel : Nat) (cursor : CursorTok)
        (acc : List Nat),
        (search cursor).nextCursorMark = some cursor →
        doSolrQueryGo search (fuel + 1) cursor acc = some (Except.ok acc))
    ∧ (∀ (index : List (List Char)) (rows : Nat),
        0 < index.length → 1 ≤ rows →
        (∀ s ∈ index, (pyUUID s).isSome = true) →
        (stableSearch index rows CursorTok.star).nextCursorMark ≠ some CursorTok.star
        ∧ do_solr_query (stableSearch index rows) (index.length + 1)
            = some (Except.ok (index.filterMap pyUUID))
        ∧ index.filterMap pyUUID ≠ []) := by
  refine ⟨fun search fuel cursor acc h => doSolrQueryGo_terminal search fuel cursor acc h, ?_⟩
  intro index rows hn hr hp
  have hzero : CursorTok.star.pos = 0 := rfl
  have hne : (index.drop CursorTok.star.pos).take rows ≠ [] := by
    rw [hzero, List.drop_zero]
    intro h0
    rcases List.take_eq_nil_iff.mp h0 with h1 | h1
    · omega
    · rw [h1] at hn; simp at hn
  refine ⟨?_, ?_, ?_⟩
  · have hmark : (stableSearch index rows CursorTok.star).nextCursorMark
        = some (CursorTok.tok (CursorTok.star.pos
            + ((index.drop CursorTok.star.pos).take rows).length)) := by
      simp only [stableSearch]
      rw [if_neg hne]
    rw [hmark]
    intro hcon
    exact CursorTok.noConfusion (Option.some.inj hcon)
  · have hgo := stable_go index rows hr hp (index.length + 1) CursorTok.star []
      (by rw [hzero]; omega)
    rw [hzero] at hgo
    simpa [do_solr_query] using hgo
  · intro hcon
    have hlen := filterMap_length_all_some index hp
    rw [hcon] at hlen
    simp at hlen
    omega

/-- Witness for C2: the round-trip signal at cursor `tok 1` returns the
accumulator untouched even though the response's page is nonempty. -/
theorem c2_roundtrip_termination_witness :
    doSolrQueryGo exSearch2 (4 + 1) (CursorTok.tok 1) [3] = some (Except.ok [3]) :=
  c2_roundtrip_termination.1 exSearch2 4 (CursorTok.tok 1) [3] (by decide)

/-- Claim C9: the terminal response's documents are never appended — the
loop exits before reading them — and an advancing response contributes
exactly its parsed document list, so the result consists of the documents
of the advancing responses only. -/
theorem c9_terminal_page_unconsumed :
    (∀ (search : CursorTok → PageResponse) (fuel : Nat) (cursor : CursorTok)
        (acc : List Nat),
        (search cursor).nextCursorMark = some cursor →
        doSolrQueryGo search (fuel + 1) cursor acc = some (Except.ok acc))
    ∧ (∀ (search : CursorTok → PageResponse) (fuel : Nat) (cursor nxt : CursorTok)
        (acc ids : List Nat),
        (search cursor).nextCursorMark = some nxt → nxt ≠ cursor →
        extractIds (search cursor).docs = Except.ok ids →
        doSolrQueryGo search (fuel + 1) cursor acc
          = doSolrQueryGo search fuel nxt (acc ++ ids)) :=
  ⟨doSolrQueryGo_terminal, doSolrQueryGo_advance⟩

/-- Witness for C9: one advancing step from the sentinel appends the page's
single parsed ID. -/
theorem c9_terminal_page_unconsumed_witness :
    doSolrQueryGo exSearch9 (0 + 1) CursorTok.star []
      = doSolrQueryGo exSearch9 0 (CursorTok.tok 1) ([] ++ [1]) :=
  c9_terminal_page_unconsumed.2 exSearch9 0 CursorTok.star (CursorTok.tok 1) [] [1]
    (by decide) (by decide) (by decide)

/-- Claim C8: a document with an absent or unparseable unique-ID field is
fatal: extraction raises, the exception propagates out of the pagination
loop, and a successful extraction contributes one ID per document, so a
malformed record can never be silently omitted while pagination
succeeds. -/
theorem c8_malformed_id_fatal :
    (∀ (docs : List SolrDoc) (d : SolrDoc), d ∈ docs →
        (d.id = none ∨ ∃ s, d.id = some s ∧ pyUUID s = none) →
        ∃ e, extractIds docs = Except.error e)
    ∧ (∀ (search : CursorTok → PageResponse) (fuel : Nat) (cursor nxt : CursorTok)
        (acc : List Nat) (e : PyErr),
        (search cursor).nextCursorMark = some nxt → nxt ≠ cursor →
        extractIds (search cursor).docs = Except.error e →
        doSolrQueryGo search (fuel + 1) cursor acc = some (Except.error e))
    ∧ (∀ (docs : List SolrDoc) (ids : List Nat),
        extractIds docs = Except.ok ids → ids.length = docs.length) :=
  ⟨extractIds_error_of_bad, doSolrQueryGo_raise, extractIds_ok_length⟩

/-- Witness for C8: a page holding one document with the malformed key
`"z"` makes the whole run raise `ValueError`. -/
theorem c8_malformed_id_fatal_witness :
    doSolrQueryGo exSearch8 (0 + 1) CursorTok.star [] = some (Except.error PyErr.valueError) :=
  c8_malformed_id_fatal.2.1 exSearch8 0 CursorTok.star (CursorTok.tok 1) [] PyErr.valueError
    (by decide) (by decide) (by decide)

/-! ## Helper lemmas about the Confirmation Gate and the Deleter -/

/-- If no element of the input stream is `y` or the empty string, the prompt
loop of `check_query` can never return `True`. -/
theorem check_query_go_no_proceed (w : World) :
    ∀ (inputs : List String) (picks : List Nat),
      (∀ s ∈ inputs, s ≠ "y" ∧ s ≠ "") →
      ∀ (rest : List String) (p : List Nat),
        (check_query_go w picks inputs).2 ≠ Except.ok (true, rest, p) := by
  intro inputs
  induction inputs with
  | nil => intro picks h rest p; simp [check_query_go]
  | cons i tl ih =>
    intro picks h rest p
    have hi := h i (by simp)
    have hor : ¬(i = "y" ∨ i = "") := by
      rintro (h2 | h2)
      exacts [hi.1 h2, hi.2 h2]
    have htl : ∀ s ∈ tl, s ≠ "y" ∧ s ≠ "" := fun s hs => h s (by simp [hs])
    intro hcon
    simp only [check_query_go] at hcon
    split at hcon
    · exact absurd (by assumption) hor
    · split at hcon
      · simp at hcon
      · split at hcon
        · split at hcon
          · simp at hcon
          · split at hcon
            · simp at hcon
            · split at hcon
              · simp at hcon
              · split at hcon
                · simp at hcon
                · exact ih picks.tail htl rest p hcon
        · exact ih picks htl rest p hcon

/-- Every event of `delete_from_cassandra` is the (single, blocking) batch
submission of the whole roster or a per-record warning. -/
theorem delete_from_cassandra_shape (w : World) (ids : List Nat) :
    ∀ e ∈ delete_from_cassandra w ids,
      e = Ev.cassExec ids ∨ ∃ m, e = Ev.logWarn m := by
  intro e he
  rcases List.mem_cons.mp he with h | h
  · exact Or.inl h
  · rcases List.mem_filterMap.mp h with ⟨⟨s, m⟩, hp, hf⟩
    cases s
    · simp at hf
      exact Or.inr ⟨_, hf.symm⟩
    · simp at hf

/-! ## Claims about the Confirmation Gate -/

/-- Claim C4: the Confirmation Gate returns `True` only for the inputs `y`
or the empty string, `n` returns `False`, and any input outside
`\x7by, n, s, ""\x7d` is rejected and re-prompted in a loop without
advancing the state. -/
theorem c4_gate_prompt_semantics :
    (∀ (w : World) (picks : List Nat) (i : String) (rest : List String),
        i ≠ "y" → i ≠ "n" → i ≠ "s" → i ≠ "" →
        check_query_go w picks (i :: rest)
          = (Ev.prompt w.countResp.numFound :: (check_query_go w picks rest).1,
             (check_query_go w picks rest).2))
    ∧ (∀ (w : World) (picks : List Nat) (i : String) (rest : List String),
        w.countResp.numFound ≠ 0 → (i = "y" ∨ i = "") →
        check_query w picks (i :: rest)
          = ([Ev.searchCount, Ev.prompt w.countResp.numFound],
             Except.ok (true, rest, picks)))
    ∧ (∀ (w : World) (picks : List Nat) (rest : List String),
        w.countResp.numFound ≠ 0 →
        check_query w picks ("n" :: rest)
          = ([Ev.searchCount, Ev.prompt w.countResp.numFound],
             Except.ok (false, rest, picks)))
    ∧ (∀ (w : World) (picks : List Nat) (inputs : List String),
        (∀ s ∈ inputs, s ≠ "y" ∧ s ≠ "") →
        ∀ (rest : List String) (p : List Nat),
          (check_query w picks inputs).2 ≠ Except.ok (true, rest, p)) := by
  refine ⟨?_, ?_, ?_, ?_⟩
  · intro w picks i rest h1 h2 h3 h4
    have hor : ¬(i = "y" ∨ i = "") := by
      rintro (h | h)
      exacts [h1 h, h4 h]
    simp [check_query_go, hor, h2, h3]
  · intro w picks i rest hz hi
    rcases hi with rfl | rfl <;> simp [check_query, check_query_go, hz]
  · intro w picks rest hz
    simp [check_query, check_query_go, hz]
  · intro w picks inputs h rest p
    by_cases hz : w.countResp.numFound = 0
    · simp [check_query, hz]
    · simpa [check_query, hz] using check_query_go_no_proceed w inputs picks h rest p

/-- Witness for C4: on the input `y`, the gate proceeds. -/
theorem c4_gate_prompt_semantics_witness :
    check_query exW3 [] ["y"]
      = ([Ev.searchCount, Ev.prompt 1], Except.ok (true, [], [])) :=
  c4_gate_prompt_semantics.2.1 exW3 [] "y" [] (by decide) (Or.inl rfl)

/-- Claim C5: when the count check reports `numFound = 0`, `check_query`
returns `False` after logging, with no prompt issued, and the whole run
performs no prompt and no deletion call of any kind afterwards. -/
theorem c5_zero_results_abort :
    ∀ (args : Args) (w : World) (fuel : Nat) (picks : List Nat) (inputs : List String),
      w.countResp.numFound = 0 →
      check_query w picks inputs
        = ([Ev.searchCount, Ev.logInfo "Query returned 0 results"],
           Except.ok (false, inputs, picks))
      ∧ (delete_by_query args w fuel picks inputs).1.filter isPrompt = []
      ∧ (delete_by_query args w fuel picks inputs).1.filter isDeleteCall = [] := by
  intro args w fuel picks inputs hz
  have hcq : check_query w picks inputs
      = ([Ev.searchCount, Ev.logInfo "Query returned 0 results"],
         Except.ok (false, inputs, picks)) := by
    simp [check_query, hz]
  refine ⟨hcq, ?_, ?_⟩ <;>
    cases hb : build_query args with
  | error e => simp [delete_by_query, hb]
  | ok q => simp [delete_by_query, hb, hcq, isPrompt, isDeleteCall]

/-- Witness for C5: the zero-match world aborts with a prompt-free,
deletion-free trace. -/
theorem c5_zero_results_abort_witness :
    check_query exW5 [] []
      = ([Ev.searchCount, Ev.logInfo "Query returned 0 results"],
         Except.ok (false, [], []))
    ∧ (delete_by_query exArgs exW5 1 [] []).1.filter isPrompt = []
    ∧ (delete_by_query exArgs exW5 1 [] []).1.filter isDeleteCall = [] :=
  c5_zero_results_abort exArgs exW5 1 [] [] (by decide)

/-- Claim C10: the sampling branch is partial — it draws from the count
response's page and reads element 0 of the re-query's result unguarded, so
with an empty page the draw raises `ValueError`, and with a nonempty page
but an empty re-query result the displayed access raises `IndexError`;
completing without raising therefore needs both to be nonempty. -/
theorem c10_sampling_branch_unguarded :
    ∀ (w : World) (picks : List Nat) (rest : List String),
      (w.countResp.docs = [] →
        (check_query_go w picks ("s" :: rest)).2 = Except.error PyErr.valueError)
      ∧ (∀ (d : SolrDoc) (ds : List SolrDoc) (kv : List Char),
          w.countResp.docs = d :: ds →
          ((d :: ds).getD (picks.headD 0 % (d :: ds).length)
              { id := none, uniqueKey := none }).uniqueKey = some kv →
          (w.sampleResp kv).docs = [] →
          (check_query_go w picks ("s" :: rest)).2 = Except.error PyErr.indexError) := by
  intro w picks rest
  constructor
  · intro hd
    simp only [check_query_go, hd]
    rw [if_neg (by decide : ¬("s" = "y" ∨ "s" = "")), if_neg (by decide : ¬"s" = "n"),
      if_pos trivial]
  · intro d ds kv hd hk hsr
    simp only [check_query_go, hd, hk, hsr]
    rw [if_neg (by decide : ¬("s" = "y" ∨ "s" = "")), if_neg (by decide : ¬"s" = "n"),
      if_pos trivial]

/-- Witness for C10: a count response that reports one match but carries an
empty page makes the sample draw raise. -/
theorem c10_sampling_branch_unguarded_witness :
    (check_query_go exW10 [] ["s"]).2 = Except.error PyErr.valueError :=
  (c10_sampling_branch_unguarded exW10 [] []).1 (by decide)

/-! ## Claims about the Coordinator and the Dual-Store Deleter -/

/-- Counterexample for C3 as stated.  The claim says the second
confirmation runs only for a non-empty paginated list and accepts
`\x7by, n, s, ""\x7d` with the empty string meaning proceed.  In the code:
the empty string is rejected by `confirm_delete` and re-prompted (here: the
run ends in `EOFError` with no deletion, instead of proceeding), and a run
whose pagination returned the empty roster still prompts the second
confirmation (the `Ev.prompt 0` event) and proceeds to delete. -/
theorem c3_counterexample :
    (confirm_delete 1 [""]).2 = none
    ∧ (delete_by_query exArgs exW3 2 [] ["y", ""]).2 = Except.error PyErr.eof
    ∧ (delete_by_query exArgs exW3 2 [] ["y", ""]).1.filter isDeleteCall = []
    ∧ do_solr_query exW3b.pageResp 1 = some (Except.ok [])
    ∧ Ev.prompt 0 ∈ (delete_by_query exArgs exW3b 1 [] ["y", "y"]).1 := by
  refine ⟨by decide, by decide, by decide, by decide, by decide⟩

/-- Claim C3 (amended): once the gate passes and pagination returns, the
Coordinator runs the second confirmation unconditionally — even for an
empty ID list — prompting with the paginated count; its semantics are those
of `confirm_delete`, not of the Confirmation Gate: only `y` and `n` are
accepted, `y` proceeds, `n` aborts, and anything else (including the empty
string) re-prompts without advancing. -/
theorem c3_second_confirmation_semantics :
    (∀ (args : Args) (w : World) (fuel : Nat) (picks : List Nat) (inputs : List String)
        (query : Query) (t1 : List Ev) (inputs2 : List String) (picks2 : List Nat)
        (ids : List Nat),
        build_query args = Except.ok query →
        check_query w picks inputs = (t1, Except.ok (true, inputs2, picks2)) →
        do_solr_query w.pageResp fuel = some (Except.ok ids) →
        ∃ (suffix : List Ev) (r : Except PyErr Unit),
          delete_by_query args w fuel picks inputs
            = (t1 ++ [Ev.logInfo "Collecting tiles ...."]
                ++ (confirm_delete ids.length inputs2).1 ++ suffix, r))
    ∧ (∀ (n : Nat) (rest : List String),
        confirm_delete n ("y" :: rest) = ([Ev.prompt n], some (true, rest)))
    ∧ (∀ (n : Nat) (rest : List String),
        confirm_delete n ("n" :: rest) = ([Ev.prompt n], some (false, rest)))
    ∧ (∀ (n : Nat) (i : String) (rest : List String), i ≠ "y" → i ≠ "n" →
        confirm_delete n (i :: rest)
          = (Ev.prompt n :: (confirm_delete n rest).1, (confirm_delete n rest).2)) := by
  refine ⟨?_, ?_, ?_, ?_⟩
  · intro args w fuel picks inputs query t1 inputs2 picks2 ids hb hc hp
    rcases hcd : confirm_delete ids.length inputs2 with ⟨t3, r3⟩
    rcases r3 with _ | ⟨b, rest2⟩
    · exact ⟨[], Except.error PyErr.eof, by simp [delete_by_query, hb, hc, hp, hcd]⟩
    · cases b with
      | false =>
        exact ⟨[Ev.logInfo "Exiting"], Except.ok (),
          by simp [delete_by_query, hb, hc, hp, hcd]⟩
      | true =>
        exact ⟨(do_delete w ids query).1 ++ [Ev.logInfo "Deleted tile IDs"], Except.ok (),
          by simp [delete_by_query, hb, hc, hp, hcd, List.append_assoc]⟩
  · intro n rest; simp [confirm_delete, confirm_delete_go]
  · intro n rest; simp [confirm_delete, confirm_delete_go]
  · intro n i rest h1 h2
    have hor : ¬(i = "y" ∨ i = "n") := by
      rintro (h | h)
      exacts [h1 h, h2 h]
    simp [confirm_delete, confirm_delete_go, hor]

/-- Witness for C3 (amended): an invalid input at the second confirmation is
re-prompted. -/
theorem c3_second_confirmation_semantics_witness :
    confirm_delete 2 ["x", "y"]
      = (Ev.prompt 2 :: (confirm_delete 2 ["y"]).1, (confirm_delete 2 ["y"]).2) :=
  c3_second_confirmation_semantics.2.2.2 2 "x" ["y"] (by decide) (by decide)

/-- Claim C6: in every invocation of `do_delete` — whatever the per-record
outcomes, failures included — the blocking row-store batch deletion happens
strictly before the index-side bulk delete, the bulk delete is keyed by the
original query object with `commit=False`, a commit follows it, and the
given roster is returned. -/
theorem c6_row_store_before_index :
    ∀ (w : World) (ids : List Nat) (q : Query),
      (do_delete w ids q).1
        = ([Ev.logInfo "Executing Cassandra delete..."] ++ delete_from_cassandra w ids
            ++ [Ev.logInfo "Executing Solr delete..."])
          ++ [Ev.solrDelete q false, Ev.solrCommit]
      ∧ Ev.cassExec ids
          ∈ [Ev.logInfo "Executing Cassandra delete..."] ++ delete_from_cassandra w ids
              ++ [Ev.logInfo "Executing Solr delete..."]
      ∧ (∀ e ∈ [Ev.logInfo "Executing Cassandra delete..."] ++ delete_from_cassandra w ids
              ++ [Ev.logInfo "Executing Solr delete..."],
          (∀ (q2 : Query) (b : Bool), e ≠ Ev.solrDelete q2 b) ∧ e ≠ Ev.solrCommit)
      ∧ (do_delete w ids q).2 = ids := by
  intro w ids q
  refine ⟨rfl, by simp [delete_from_cassandra], ?_, rfl⟩
  intro e he
  rcases List.mem_append.mp he with he1 | he1
  · rcases List.mem_append.mp he1 with he2 | he2
    · simp only [List.mem_singleton] at he2
      subst he2
      exact ⟨fun q2 b => by simp, by simp⟩
    · rcases delete_from_cassandra_shape w ids e he2 with h | ⟨m, h⟩ <;> subst h
      · exact ⟨fun q2 b => by simp, by simp⟩
      · exact ⟨fun q2 b => by simp, by simp⟩
  · simp only [List.mem_singleton] at he1
    subst he1
    exact ⟨fun q2 b => by simp, by simp⟩

/-- Witness for C6: concrete invocation whose single row-store outcome is a
failure; the roster is still returned and the prefix events are not index
deletions. -/
theorem c6_row_store_before_index_witness :
    (do_delete exW6 [1] exQuery).2 = [1]
    ∧ Ev.logInfo "Executing Cassandra delete..." ≠ Ev.solrDelete exQuery false
    ∧ Ev.logInfo "Executing Cassandra delete..." ≠ Ev.solrCommit :=
  ⟨(c6_row_store_before_index exW6 [1] exQuery).2.2.2,
   ((c6_row_store_before_index exW6 [1] exQuery).2.2.1 _ (by decide)).1 exQuery false,
   ((c6_row_store_before_index exW6 [1] exQuery).2.2.1 _ (by decide)).2⟩

/-- Claim C7: a row-store deletion failure is logged as a warning and never
raised (`do_delete` and `delete_from_cassandra` are total); the whole
roster is submitted in one batch regardless of outcomes, the index bulk
delete and commit still execute, and `do_delete` returns the full roster. -/
theorem c7_row_failure_tolerated :
    ∀ (w : World) (ids : List Nat) (q : Query),
      (do_delete w ids q).2 = ids
      ∧ Ev.cassExec ids ∈ (do_delete w ids q).1
      ∧ Ev.solrDelete q false ∈ (do_delete w ids q).1
      ∧ Ev.solrCommit ∈ (do_delete w ids q).1
      ∧ (∀ p ∈ w.cassResults ids, p.1 = false →
          Ev.logWarn ("Could not delete tile " ++ p.2) ∈ (do_delete w ids q).1) := by
  intro w ids q
  refine ⟨rfl, by simp [do_delete, delete_from_cassandra],
    by simp [do_delete, delete_from_solr], by simp [do_delete, delete_from_solr], ?_⟩
  intro p hp hfail
  have hmem : Ev.logWarn ("Could not delete tile " ++ p.2) ∈ delete_from_cassandra w ids := by
    simp only [delete_from_cassandra, List.mem_cons]
    right
    exact List.mem_filterMap.mpr ⟨p, hp, by simp [hfail]⟩
  simp [do_delete, hmem]

/-- Witness for C7: with outcomes success-then-failure, the failure is
logged, the roster is returned whole, and the bulk delete still appears. -/
theorem c7_row_failure_tolerated_witness :
    (do_delete exW7 [1, 2] exQuery).2 = [1, 2]
    ∧ Ev.logWarn ("Could not delete tile " ++ "tile2") ∈ (do_delete exW7 [1, 2] exQuery).1
    ∧ Ev.solrDelete exQuery false ∈ (do_delete exW7 [1, 2] exQuery).1 :=
  ⟨(c7_row_failure_tolerated exW7 [1, 2] exQuery).1,
   (c7_row_failure_tolerated exW7 [1, 2] exQuery).2.2.2.2 (false, "tile2") (by decide) rfl,
   (c7_row_failure_tolerated exW7 [1, 2] exQuery).2.2.1⟩

end DeleteByQuery
